import Mathlib

/-!
Verification of the MEXC JUMP/USDT websocket listener (src/main.py) against
its specification. The file gives a shallow embedding of the program:

* the fixed configuration constants (`SYMBOL`, `INTERVAL`, `CHANNEL`,
  `PING_INTERVAL_SEC`, ...);
* the websocket callbacks `on_open`, `on_message`, `on_error`, `on_close`;
* the keep-alive thread `_send_ping_forever` (fuel-bounded unfolding of the
  `while True` loop, indexed by a send-success oracle);
* the SIGINT handler and the `__main__` reconnect loop, embedded as a small
  labelled transition system (`step` / `mainLoopRun`).

Python conventions captured explicitly:

* `print(a, b)` joins its arguments with one space and emits one stdout line;
  `traceback.print_exc()` writes to stderr, so it does not appear among the
  stdout lines modelled here;
* `getattr(obj, name, None)` on a protobuf message is `Option`-valued
  (`none` = the attribute does not exist in the generated schema; proto3
  string fields that exist always yield a string, possibly empty);
* Python `a or b` returns `b` when `a` is falsy: for strings the only falsy
  value is `""` (function `pyOrStr`), for ints it is `0` (`pyOrInt`), and
  protobuf message objects are always truthy (`pyOrPBT`);
* an f-string renders `None` as "None" (`pyStr`, `pyStrInt`).
-/

namespace MexcJump

/-! Configuration constants, lines 44-48 of src/main.py. -/

def SYMBOL : String := "JUMPUSDT"

def INTERVAL : String := "100ms"

def CHANNEL : String := "spot@public.aggre.bookTicker.v3.api.pb@" ++ INTERVAL ++ "@" ++ SYMBOL

def WS_URL : String := "wss://wbs-api.mexc.com/ws"

def PING_INTERVAL_SEC : Nat := 20

/-- The delay of `time.sleep(1)` between reconnect attempts (line 173). -/
def RECONNECT_DELAY_SEC : Nat := 1

/-- Result of `json.dumps` on the Python dict `\x7b"method": "PING"\x7d` (line 61). -/
def pingMessage : String := "\x7b\"method\": \"PING\"\x7d"

/-- Result of `json.dumps` on the subscription dict of `on_open` (lines 70-71). -/
def subscribeMessage : String :=
  "\x7b\"method\": \"SUBSCRIPTION\", \"params\": [\"" ++ CHANNEL ++ "\"]\x7d"

/-- Every console line of the program is a bracketed tag followed by the rest
of the line; keeping the tag explicit makes prefix facts definitional. -/
def tagged (tag rest : String) : String := tag ++ rest

/-- Python `a or b` for two `getattr(..., None)` results that are strings when
present: `None` and `""` are falsy, any other string is truthy. -/
def pyOrStr (a b : Option String) : Option String :=
  match a with
  | some s => if s = "" then b else some s
  | none => b

/-- Python `a or b` for two optional ints (`sendTime`): `None` and `0` are falsy. -/
def pyOrInt (a b : Option Int) : Option Int :=
  match a with
  | some n => if n = 0 then b else some n
  | none => b

/-- How an f-string renders an optional string: `None` prints as "None". -/
def pyStr : Option String → String
  | none => "None"
  | some s => s

/-- How an f-string renders an optional int: `None` prints as "None". -/
def pyStrInt : Option Int → String
  | none => "None"
  | some n => toString n

/-- The bookTicker sub-message of the decoded wrapper. Each field models
`getattr(pbt, name, None)` for one of the probed attribute names
(lines 105-108): `none` when the generated schema lacks that attribute,
`some s` (possibly `some ""`) when it has it. -/
structure PBT where
  bidPrice : Option String
  bidprice : Option String
  bidQuantity : Option String
  bidquantity : Option String
  askPrice : Option String
  askprice : Option String
  askQuantity : Option String
  askquantity : Option String
  deriving DecidableEq

/-- A successfully parsed `PushDataV3ApiWrapper` as seen through the
`getattr` probes of `on_message` (lines 93-100, 120): `channel` and `symbol`
default to `""`, the three bookTicker field-name variants and the two
sendTime variants are optional attributes. -/
structure Wrapper where
  channel : String
  symbol : String
  publicAggreBookTicker : Option PBT
  publicaggrebookticker : Option PBT
  publicbookticker : Option PBT
  sendTime : Option Int
  sendtime : Option Int
  deriving DecidableEq

/-- Python `a or b` on optional protobuf sub-messages (lines 97-101):
a message object is always truthy, so the chain takes the first present one. -/
def pyOrPBT (a b : Option PBT) : Option PBT :=
  match a with
  | some p => some p
  | none => b

/-- An inbound websocket frame: `str` payload or `bytes` payload. -/
inductive Frame where
  | text (s : String)
  | binary (bytes : List Nat)
  deriving DecidableEq

/-- What one `on_message` call does: the stdout lines it prints, whether it
reached the decode path (`wrapper.ParseFromString`), and whether it let an
exception escape to the websocket library. -/
structure MsgResult where
  lines : List String
  decodeAttempted : Bool
  raised : Bool
  deriving DecidableEq

/-- Lines 103-121 of `on_message`: the branch on the or-chained bookTicker
sub-message and the price-field probes. `pbtRepr` stands for Python's
`str(pbt)` used by the raw fallback line. -/
def bookTickerLines (pbtRepr : PBT → String) (w : Wrapper) : List String :=
  match pyOrPBT w.publicAggreBookTicker (pyOrPBT w.publicaggrebookticker w.publicbookticker) with
  | some pbt =>
    let bid_price := pyOrStr pbt.bidPrice pbt.bidprice
    let bid_qty := pyOrStr pbt.bidQuantity pbt.bidquantity
    let ask_price := pyOrStr pbt.askPrice pbt.askprice
    let ask_qty := pyOrStr pbt.askQuantity pbt.askquantity
    if bid_price ≠ none ∨ ask_price ≠ none then
      [tagged "[bookTicker]" (" " ++ w.symbol ++ " | bid " ++ pyStr bid_price ++ " x " ++
        pyStr bid_qty ++ "  ask " ++ pyStr ask_price ++ " x " ++ pyStr ask_qty ++
        "  (channel=" ++ w.channel ++ ")")]
    else
      [tagged "[bookTicker raw]" (" symbol=" ++ w.symbol ++ " (channel=" ++ w.channel ++
        ") -> " ++ pbtRepr pbt)]
  | none =>
    [tagged "[protobuf]" (" channel=" ++ w.channel ++ " symbol=" ++ w.symbol ++
      " sendtime=" ++ pyStrInt (pyOrInt w.sendTime w.sendtime))]

/-- The `on_message` callback (lines 77-124). `decoder` is `none` when the
failed import of `PushDataV3ApiWrapper` left the class `None`; otherwise it
maps the frame bytes to `none` when `ParseFromString` raises and to the
parsed wrapper when it succeeds. The `except` block prints the `[error]`
header on stdout (the traceback goes to stderr) and swallows the exception,
so `raised` is `false` on every path. -/
def on_message (pbtRepr : PBT → String) (decoder : Option (List Nat → Option Wrapper)) :
    Frame → MsgResult
  | .text s => ⟨[tagged "[text]" (" " ++ s)], false, false⟩
  | .binary bs =>
    match decoder with
    | none =>
      ⟨[tagged "[binary]" (" " ++ toString bs.length ++
        " bytes (protobuf). Install and generate proto classes to decode.")], false, false⟩
    | some dec =>
      match dec bs with
      | none => ⟨[tagged "[error]" " Failed to decode protobuf message:"], true, false⟩
      | some w => ⟨bookTickerLines pbtRepr w, true, false⟩

/-- What `on_open` (lines 68-74) does: print the `[open]` line, send exactly
the subscription message, start the ping thread. -/
structure OpenResult where
  lines : List String
  sends : List String
  pingThreadStarted : Bool
  deriving DecidableEq

def on_open : OpenResult :=
  ⟨[tagged "[open]" (" Connected. Subscribing to: " ++ CHANNEL)], [subscribeMessage], true⟩

/-- Stdout of `on_error` (lines 127-128); `errStr` is Python's `str(error)`. -/
def on_error_lines (errStr : String) : List String :=
  [tagged "[error]" (" " ++ errStr)]

/-- Stdout of `on_close` (lines 131-132). -/
def on_close_lines (code : Option Int) (reason : Option String) : List String :=
  [tagged "[close]" (" code=" ++ pyStrInt code ++ " reason=" ++ pyStr reason)]

/-- Stdout of `_handle_sigint` (line 136): `print("\n[signal] ...")` emits an
empty line followed by the tagged line. -/
def handleSigintLines : List String :=
  ["", tagged "[signal]" " SIGINT received. Stopping..."]

/-- Stdout of the `finally` block of `__main__` (line 179). -/
def mainFinallyLines : List String :=
  ["Interrupted by user. Bye!"]

/-- The bracketed tags the specification lists for console output. -/
def outputTags : List String :=
  ["[open]", "[text]", "[binary]", "[bookTicker]", "[protobuf]", "[error]", "[close]", "[signal]"]

/-- Boolean string-prefix test used for concrete tag checks. -/
def strHasTag (t l : String) : Bool := t.data.isPrefixOf l.data

/-- A line starts with one of the given tags. -/
def startsWithTag (tags : List String) (l : String) : Prop :=
  ∃ t ∈ tags, ∃ r, l = t ++ r

/-- The keep-alive thread `_send_ping_forever` (lines 57-65), unfolded with
`fuel` remaining iterations starting at iteration `k`. The oracle `ok i`
says whether the `i`-th `ws.send` succeeds. Each successful iteration sends
`pingMessage` at time `PING_INTERVAL_SEC * i` and then sleeps; the first
failed send hits the `except: break`, which emits nothing and raises
nothing — the trace simply ends. -/
def sendPingForever (ok : Nat → Bool) : Nat → Nat → List (Nat × String)
  | _, 0 => []
  | k, fuel + 1 =>
    if ok k then (PING_INTERVAL_SEC * k, pingMessage) :: sendPingForever ok (k + 1) fuel
    else []

/-! The `__main__` reconnect loop (lines 168-179) and the SIGINT handler
(lines 135-150), as a labelled transition system. The control points of the
loop body are: the `while not STOP_EVENT.is_set()` test (`whileCheck`),
blocking inside `app.run_forever` (`running`), the `if STOP_EVENT.is_set(): break`
test after the run-loop returns (`afterCheck`), the `time.sleep(1)` between
attempts (`sleeping`), and the `finally` block (`finished`). -/

inductive Phase where
  | whileCheck
  | running
  | afterCheck
  | sleeping
  | finished
  deriving DecidableEq

structure LoopState where
  phase : Phase
  /-- `STOP_EVENT.is_set()` -/
  stop : Bool
  /-- how many times `app.run_forever` has been called -/
  runs : Nat
  /-- whether `_handle_sigint` force-closed the active connection (`APP.close()`) -/
  closeForced : Bool
  deriving DecidableEq

inductive Ev where
  /-- evaluate the `while` condition; call `run_forever` when not stopped -/
  | whileStep
  /-- `run_forever` returns (connection failure, close, or forced close) -/
  | sessionEnd
  /-- evaluate the `if STOP_EVENT.is_set(): break` test -/
  | afterStep
  /-- `time.sleep(1)` completes -/
  | sleepEnd
  /-- asynchronous SIGINT: `_handle_sigint` sets `STOP_EVENT` and closes `APP` -/
  | sigint
  deriving DecidableEq

def step (s : LoopState) : Ev → Option LoopState
  | .whileStep =>
    if s.phase = .whileCheck then
      some (if s.stop then { s with phase := .finished }
            else { s with phase := .running, runs := s.runs + 1 })
    else none
  | .sessionEnd =>
    if s.phase = .running then some { s with phase := .afterCheck } else none
  | .afterStep =>
    if s.phase = .afterCheck then
      some (if s.stop then { s with phase := .finished } else { s with phase := .sleeping })
    else none
  | .sleepEnd =>
    if s.phase = .sleeping then some { s with phase := .whileCheck } else none
  | .sigint => some { s with stop := true, closeForced := true }

def mainLoopRun : LoopState → List Ev → Option LoopState
  | s, [] => some s
  | s, e :: es =>
    match step s e with
    | some s' => mainLoopRun s' es
    | none => none

/-! Helper lemmas. -/

/-- Resolution of one price field by the or-chained probe: the result is
`none` exactly when the first (camelCase) variant is absent or empty and the
second (lowercase) variant is absent. -/
lemma pyOrStr_eq_none (a b : Option String) :
    pyOrStr a b = none ↔ (a = none ∨ a = some "") ∧ b = none := by
  cases a with
  | none => simp [pyOrStr]
  | some s =>
    by_cases hs : s = "" <;> simp [pyOrStr, hs]

lemma listPrefix_append (l m : List Char) : List.isPrefixOf l (l ++ m) = true := by
  induction l with
  | nil => simp
  | cons c cs ih => simp [List.isPrefixOf_cons₂, ih]

lemma strHasTag_append (t r : String) : strHasTag t (t ++ r) = true := by
  show List.isPrefixOf t.data (t ++ r).data = true
  rw [String.data_append]
  exact listPrefix_append t.data r.data

/-! Theorems for the claims. -/

/-- C3: every inbound text frame `m` is printed as the single stdout line
"[text] " followed by `m` verbatim, with no decode attempt and no exception,
independently of the configured decoder; on the concrete acknowledgment
frame of the spec the output is exactly the expected line. -/
theorem C3_text_frame_verbatim :
    (∀ pbtRepr decoder m,
      on_message pbtRepr decoder (.text m) = ⟨["[text] " ++ m], false, false⟩) ∧
    (on_message (fun _ => "") none
        (.text "\x7b\"id\":1,\"code\":0,\"msg\":\"spot@public.aggre.bookTicker.v3.api.pb@100ms@JUMPUSDT\"\x7d")).lines
      = ["[text] \x7b\"id\":1,\"code\":0,\"msg\":\"spot@public.aggre.bookTicker.v3.api.pb@100ms@JUMPUSDT\"\x7d"] :=
  ⟨fun _ _ _ => rfl, rfl⟩

/-- C4: with no decoder configured, every binary frame yields exactly the
byte-length report and no exception; a 40-byte frame yields exactly the
expected line. -/
theorem C4_binary_no_decoder :
    (∀ pbtRepr bs,
      on_message pbtRepr none (.binary bs) =
        ⟨["[binary] " ++ toString bs.length ++
            " bytes (protobuf). Install and generate proto classes to decode."],
          false, false⟩) ∧
    (on_message (fun _ => "") none (.binary (List.replicate 40 0))).lines
      = ["[binary] 40 bytes (protobuf). Install and generate proto classes to decode."] :=
  ⟨fun _ _ => rfl, rfl⟩

/-- C5: a binary frame whose decode raises is answered by the `[error]`
report line and a normal return, and `on_message` never lets an exception
escape on any input, so subsequent frames keep being processed. -/
theorem C5_decode_error_contained :
    (∀ pbtRepr dec bs, dec bs = none →
      on_message pbtRepr (some dec) (.binary bs) =
        ⟨["[error] Failed to decode protobuf message:"], true, false⟩) ∧
    (∀ pbtRepr decoder f, (on_message pbtRepr decoder f).raised = false) := by
  constructor
  · intro pr dec bs h
    simp only [on_message, h]
    rfl
  · intro pr d f
    cases f with
    | text s => rfl
    | binary bs =>
      cases d with
      | none => rfl
      | some dec => cases hdec : dec bs <;> simp only [on_message, hdec]

/-- Witness for C5 at a concrete failing decoder and empty frame. -/
theorem C5_witness :
    on_message (fun _ => "") (some (fun _ => none)) (.binary []) =
      ⟨["[error] Failed to decode protobuf message:"], true, false⟩ :=
  C5_decode_error_contained.1 (fun _ => "") (fun _ => none) [] rfl

/-- C6: the keep-alive loop sends exactly the JSON text
`\x7b"method": "PING"\x7d` with one send per 20-second period (the `i`-th send at
time `20 * i`), every element of its send trace is that message, and on the
first failing send it stops at once, emitting nothing further. -/
theorem C6_keepalive_ping :
    PING_INTERVAL_SEC = 20 ∧
    pingMessage = "\x7b\"method\": \"PING\"\x7d" ∧
    (∀ ok k fuel, ok k = false → sendPingForever ok k (fuel + 1) = []) ∧
    (∀ ok k fuel, ok k = true →
      sendPingForever ok k (fuel + 1) =
        (PING_INTERVAL_SEC * k, pingMessage) :: sendPingForever ok (k + 1) fuel) ∧
    (∀ ok k fuel t m, (t, m) ∈ sendPingForever ok k fuel → m = pingMessage) := by
  refine ⟨rfl, rfl, ?_, ?_, ?_⟩
  · intro ok k fuel h
    simp [sendPingForever, h]
  · intro ok k fuel h
    simp [sendPingForever, h]
  · intro ok k fuel
    induction fuel generalizing k with
    | zero =>
      intro t m h
      simp [sendPingForever] at h
    | succ n ih =>
      intro t m h
      by_cases hk : ok k
      · simp only [sendPingForever, hk, if_true, List.mem_cons, Prod.mk.injEq] at h
        rcases h with ⟨h1, h2⟩ | h
        · exact h2
        · exact ih (k + 1) t m h
      · simp [sendPingForever, hk] at h

/-- Witness for C6: concrete oracles exercising the failing-send case, the
successful-send case, and the trace-content conjunct. -/
theorem C6_witness :
    sendPingForever (fun _ => false) 0 4 = [] ∧
    sendPingForever (fun _ => true) 0 1 =
      (PING_INTERVAL_SEC * 0, pingMessage) :: sendPingForever (fun _ => true) 1 0 ∧
    "\x7b\"method\": \"PING\"\x7d" = pingMessage :=
  ⟨C6_keepalive_ping.2.2.1 (fun _ => false) 0 3 rfl,
   C6_keepalive_ping.2.2.2.1 (fun _ => true) 0 0 rfl,
   C6_keepalive_ping.2.2.2.2 (fun _ => true) 0 1 (PING_INTERVAL_SEC * 0)
     "\x7b\"method\": \"PING\"\x7d" (by simp [sendPingForever, pingMessage])⟩

/-- C7: `on_open` sends exactly one message, the subscription command, whose
text is the exact JSON built from the fixed literals, the configured
interval "100ms" and the configured symbol "JUMPUSDT". -/
theorem C7_subscribe_once_exact :
    on_open.sends = [subscribeMessage] ∧
    subscribeMessage =
      "\x7b\"method\": \"SUBSCRIPTION\", \"params\": [\"spot@public.aggre.bookTicker.v3.api.pb@100ms@JUMPUSDT\"]\x7d" ∧
    CHANNEL = "spot@public.aggre.bookTicker.v3.api.pb@" ++ INTERVAL ++ "@" ++ SYMBOL ∧
    INTERVAL = "100ms" ∧ SYMBOL = "JUMPUSDT" :=
  ⟨rfl, rfl, rfl, rfl, rfl⟩

/-- Exhaustive case analysis of one transition of the reconnect loop. -/
lemma step_cases (s : LoopState) (e : Ev) (s' : LoopState) (h : step s e = some s') :
    (s.phase = .whileCheck ∧ s.stop = true ∧ s' = { s with phase := .finished }) ∨
    (s.phase = .whileCheck ∧ s.stop = false ∧
      s' = { s with phase := .running, runs := s.runs + 1 }) ∨
    (s.phase = .running ∧ s' = { s with phase := .afterCheck }) ∨
    (s.phase = .afterCheck ∧ s.stop = true ∧ s' = { s with phase := .finished }) ∨
    (s.phase = .afterCheck ∧ s.stop = false ∧ s' = { s with phase := .sleeping }) ∨
    (s.phase = .sleeping ∧ s' = { s with phase := .whileCheck }) ∨
    (s' = { s with stop := true, closeForced := true }) := by
  cases e with
  | whileStep =>
    simp only [step] at h
    split at h
    · rename_i hp
      rw [Option.some.injEq] at h
      split at h
      · rename_i hs
        exact Or.inl ⟨hp, by simpa using hs, h.symm⟩
      · rename_i hs
        exact Or.inr (Or.inl ⟨hp, by simpa using hs, h.symm⟩)
    · exact absurd h (by simp)
  | sessionEnd =>
    simp only [step] at h
    split at h
    · rename_i hp
      rw [Option.some.injEq] at h
      exact Or.inr (Or.inr (Or.inl ⟨hp, h.symm⟩))
    · exact absurd h (by simp)
  | afterStep =>
    simp only [step] at h
    split at h
    · rename_i hp
      rw [Option.some.injEq] at h
      split at h
      · rename_i hs
        exact Or.inr (Or.inr (Or.inr (Or.inl ⟨hp, by simpa using hs, h.symm⟩)))
      · rename_i hs
        exact Or.inr (Or.inr (Or.inr (Or.inr (Or.inl ⟨hp, by simpa using hs, h.symm⟩))))
    · exact absurd h (by simp)
  | sleepEnd =>
    simp only [step] at h
    split at h
    · rename_i hp
      rw [Option.some.injEq] at h
      exact Or.inr (Or.inr (Or.inr (Or.inr (Or.inr (Or.inl ⟨hp, h.symm⟩)))))
    · exact absurd h (by simp)
  | sigint =>
    simp only [step, Option.some.injEq] at h
    exact Or.inr (Or.inr (Or.inr (Or.inr (Or.inr (Or.inr h.symm)))))

/-- C1: the reconnect loop retries exactly once per failure: from the check
that follows a returned run-loop with the stop flag unset, the loop sleeps
the fixed delay (1 s) and performs exactly one further `run_forever` call,
for every retry count `n` (so it never gives up on its own); moreover no
transition reaches the final phase with the stop flag unset, and a
transition increments the run count only by entering the run-loop, by
exactly one, and only when the stop flag is unset. -/
theorem C1_reconnect_exactly_once :
    RECONNECT_DELAY_SEC = 1 ∧
    (∀ n c, mainLoopRun ⟨.afterCheck, false, n, c⟩ [.afterStep, .sleepEnd, .whileStep]
        = some ⟨.running, false, n + 1, c⟩) ∧
    (∀ s e s', step s e = some s' → s'.phase = .finished → s'.stop = true) ∧
    (∀ s e s', step s e = some s' →
      s'.runs = s.runs ∨ (s'.runs = s.runs + 1 ∧ s'.phase = .running ∧ s.stop = false)) := by
  refine ⟨rfl, fun n c => rfl, ?_, ?_⟩
  · intro s e s' h hf
    rcases step_cases s e s' h with ⟨hp, hs, rfl⟩ | ⟨hp, hs, rfl⟩ | ⟨hp, rfl⟩ |
      ⟨hp, hs, rfl⟩ | ⟨hp, hs, rfl⟩ | ⟨hp, rfl⟩ | rfl
    · exact hs
    · simp at hf
    · simp at hf
    · exact hs
    · simp at hf
    · simp at hf
    · rfl
  · intro s e s' h
    rcases step_cases s e s' h with ⟨hp, hs, rfl⟩ | ⟨hp, hs, rfl⟩ | ⟨hp, rfl⟩ |
      ⟨hp, hs, rfl⟩ | ⟨hp, hs, rfl⟩ | ⟨hp, rfl⟩ | rfl
    · exact Or.inl rfl
    · exact Or.inr ⟨rfl, rfl, hs⟩
    · exact Or.inl rfl
    · exact Or.inl rfl
    · exact Or.inl rfl
    · exact Or.inl rfl
    · exact Or.inl rfl

/-- Witness for C1 at concrete loop states. -/
theorem C1_witness :
    mainLoopRun ⟨Phase.afterCheck, false, 0, false⟩ [Ev.afterStep, Ev.sleepEnd, Ev.whileStep]
      = some ⟨Phase.running, false, 1, false⟩ ∧
    (⟨Phase.finished, true, 7, false⟩ : LoopState).stop = true ∧
    ((⟨Phase.running, false, 3, false⟩ : LoopState).runs
        = (⟨Phase.whileCheck, false, 2, false⟩ : LoopState).runs ∨
      ((⟨Phase.running, false, 3, false⟩ : LoopState).runs
          = (⟨Phase.whileCheck, false, 2, false⟩ : LoopState).runs + 1 ∧
        (⟨Phase.running, false, 3, false⟩ : LoopState).phase = Phase.running ∧
        (⟨Phase.whileCheck, false, 2, false⟩ : LoopState).stop = false)) :=
  ⟨C1_reconnect_exactly_once.2.1 0 false,
   C1_reconnect_exactly_once.2.2.1 ⟨Phase.whileCheck, true, 7, false⟩ Ev.whileStep
     ⟨Phase.finished, true, 7, false⟩ rfl rfl,
   C1_reconnect_exactly_once.2.2.2 ⟨Phase.whileCheck, false, 2, false⟩ Ev.whileStep
     ⟨Phase.running, false, 3, false⟩ rfl⟩

/-- A transition from a state with the stop flag set leaves the run count
unchanged and the flag set. -/
lemma step_stopped_frozen (s : LoopState) (e : Ev) (s' : LoopState)
    (hstop : s.stop = true) (h : step s e = some s') :
    s'.runs = s.runs ∧ s'.stop = true := by
  rcases step_cases s e s' h with ⟨hp, hs, rfl⟩ | ⟨hp, hs, rfl⟩ | ⟨hp, rfl⟩ |
    ⟨hp, hs, rfl⟩ | ⟨hp, hs, rfl⟩ | ⟨hp, rfl⟩ | rfl
  · exact ⟨rfl, hstop⟩
  · exact absurd hstop (by simp [hs])
  · exact ⟨rfl, hstop⟩
  · exact ⟨rfl, hstop⟩
  · exact absurd hstop (by simp [hs])
  · exact ⟨rfl, hstop⟩
  · exact ⟨rfl, rfl⟩

/-- C2: once the stop flag is set, no transition performs another
`run_forever` call and the flag stays set; the end-to-end scenario — SIGINT
while a connection is active — force-closes the connection
(`closeForced = true`) and reaches the final phase without any further
run-loop call. -/
theorem C2_no_reconnect_after_stop :
    (∀ s e s', s.stop = true → step s e = some s' →
      s'.runs = s.runs ∧ s'.stop = true) ∧
    (∀ n, mainLoopRun ⟨.running, false, n, false⟩ [.sigint, .sessionEnd, .afterStep]
        = some ⟨.finished, true, n, true⟩) :=
  ⟨fun s e s' hstop h => step_stopped_frozen s e s' hstop h, fun _ => rfl⟩

/-- Witness for C2 at a concrete stopped state and a concrete scenario. -/
theorem C2_witness :
    ((⟨Phase.afterCheck, true, 5, true⟩ : LoopState).runs
        = (⟨Phase.running, true, 5, true⟩ : LoopState).runs ∧
      (⟨Phase.afterCheck, true, 5, true⟩ : LoopState).stop = true) ∧
    mainLoopRun ⟨Phase.running, false, 2, false⟩ [Ev.sigint, Ev.sessionEnd, Ev.afterStep]
      = some ⟨Phase.finished, true, 2, true⟩ :=
  ⟨C2_no_reconnect_after_stop.1 ⟨Phase.running, true, 5, true⟩ Ev.sessionEnd
     ⟨Phase.afterCheck, true, 5, true⟩ rfl rfl,
   C2_no_reconnect_after_stop.2 2⟩

/-- C8: the stop flag is monotone: no transition of the program — loop step,
session end, sleep, or the signal handler itself — ever changes it from set
back to unset. -/
theorem C8_stop_flag_monotone :
    ∀ s e s', step s e = some s' → s.stop = true → s'.stop = true := by
  intro s e s' h hstop
  exact (step_stopped_frozen s e s' hstop h).2

/-- Witness for C8 at a concrete stopped state. -/
theorem C8_witness : (⟨Phase.whileCheck, true, 0, true⟩ : LoopState).stop = true :=
  C8_stop_flag_monotone ⟨Phase.sleeping, true, 0, true⟩ Ev.sleepEnd
    ⟨Phase.whileCheck, true, 0, true⟩ rfl rfl

/-- The spec's tag list extended with the raw-fallback tag actually used by
`on_message` (line 117). -/
def extendedTags : List String := outputTags ++ ["[bookTicker raw]"]

/-- Every stdout line of `on_message` is one bracketed tag followed by the
rest of the line, with the tag drawn from `extendedTags`. -/
lemma on_message_lines_shape (pbtRepr : PBT → String)
    (decoder : Option (List Nat → Option Wrapper)) (f : Frame) :
    ∃ t ∈ extendedTags, ∃ r, (on_message pbtRepr decoder f).lines = [t ++ r] := by
  cases f with
  | text s =>
    exact ⟨"[text]", by simp [extendedTags, outputTags], " " ++ s, rfl⟩
  | binary bs =>
    cases decoder with
    | none =>
      exact ⟨"[binary]", by simp [extendedTags, outputTags],
        " " ++ toString bs.length ++
          " bytes (protobuf). Install and generate proto classes to decode.", rfl⟩
    | some dec =>
      cases hdec : dec bs with
      | none =>
        refine ⟨"[error]", by simp [extendedTags, outputTags],
          " Failed to decode protobuf message:", ?_⟩
        simp only [on_message, hdec]
        rfl
      | some w =>
        have hlines : (on_message pbtRepr (some dec) (.binary bs)).lines =
            bookTickerLines pbtRepr w := by
          simp only [on_message, hdec]
        rw [hlines]
        unfold bookTickerLines
        cases hpbt : pyOrPBT w.publicAggreBookTicker
            (pyOrPBT w.publicaggrebookticker w.publicbookticker) with
        | none =>
          exact ⟨"[protobuf]", by simp [extendedTags, outputTags],
            " channel=" ++ w.channel ++ " symbol=" ++ w.symbol ++
              " sendtime=" ++ pyStrInt (pyOrInt w.sendTime w.sendtime), rfl⟩
        | some pbt =>
          by_cases hc : pyOrStr pbt.bidPrice pbt.bidprice ≠ none ∨
              pyOrStr pbt.askPrice pbt.askprice ≠ none
          · refine ⟨"[bookTicker]", by simp [extendedTags, outputTags], ?_, ?_⟩
            · exact " " ++ w.symbol ++ " | bid " ++ pyStr (pyOrStr pbt.bidPrice pbt.bidprice)
                ++ " x " ++ pyStr (pyOrStr pbt.bidQuantity pbt.bidquantity) ++ "  ask "
                ++ pyStr (pyOrStr pbt.askPrice pbt.askprice) ++ " x "
                ++ pyStr (pyOrStr pbt.askQuantity pbt.askquantity)
                ++ "  (channel=" ++ w.channel ++ ")"
            · simp only [if_pos hc]
              rfl
          · refine ⟨"[bookTicker raw]", by simp [extendedTags], ?_, ?_⟩
            · exact " symbol=" ++ w.symbol ++ " (channel=" ++ w.channel ++ ") -> "
                ++ pbtRepr pbt
            · simp only [if_neg hc]
              rfl

/-- C9 counterexample: the farewell line printed by the `finally` block of
`__main__` carries none of the listed bracketed tags. -/
theorem C9_counterexample :
    "Interrupted by user. Bye!" ∈ mainFinallyLines ∧
    outputTags.all (fun t => !(strHasTag t "Interrupted by user. Bye!")) = true := by
  exact ⟨by simp [mainFinallyLines], by decide⟩

/-- C9 amended: every stdout line of the websocket callbacks starts with one
of the listed tags — except that a decoded payload whose price fields differ
from both probed shapes is printed under the tag "[bookTicker raw]", the
signal handler's `print("\n[signal] ...")` also emits one empty line, and
the `finally` block prints the untagged farewell line
"Interrupted by user. Bye!". -/
theorem C9_console_lines_tagged :
    (∀ l ∈ on_open.lines, startsWithTag outputTags l) ∧
    (∀ pbtRepr decoder f, ∀ l ∈ (on_message pbtRepr decoder f).lines,
      startsWithTag extendedTags l) ∧
    (∀ e, ∀ l ∈ on_error_lines e, startsWithTag outputTags l) ∧
    (∀ c r, ∀ l ∈ on_close_lines c r, startsWithTag outputTags l) ∧
    (∀ l ∈ handleSigintLines, l = "" ∨ startsWithTag outputTags l) ∧
    mainFinallyLines = ["Interrupted by user. Bye!"] := by
  refine ⟨?_, ?_, ?_, ?_, ?_, rfl⟩
  · intro l hl
    rw [show on_open.lines = ["[open]" ++ (" Connected. Subscribing to: " ++ CHANNEL)] from rfl,
      List.mem_singleton] at hl
    exact ⟨"[open]", by simp [outputTags], " Connected. Subscribing to: " ++ CHANNEL, hl⟩
  · intro pr d f l hl
    obtain ⟨t, ht, r, hr⟩ := on_message_lines_shape pr d f
    rw [hr, List.mem_singleton] at hl
    exact ⟨t, ht, r, hl⟩
  · intro e l hl
    rw [show on_error_lines e = ["[error]" ++ (" " ++ e)] from rfl, List.mem_singleton] at hl
    exact ⟨"[error]", by simp [outputTags], " " ++ e, hl⟩
  · intro c r l hl
    rw [show on_close_lines c r =
        ["[close]" ++ (" code=" ++ pyStrInt c ++ " reason=" ++ pyStr r)] from rfl,
      List.mem_singleton] at hl
    exact ⟨"[close]", by simp [outputTags], " code=" ++ pyStrInt c ++ " reason=" ++ pyStr r, hl⟩
  · intro l hl
    rw [show handleSigintLines = ["", "[signal]" ++ " SIGINT received. Stopping..."] from rfl,
      List.mem_cons, List.mem_singleton] at hl
    rcases hl with rfl | rfl
    · exact Or.inl rfl
    · exact Or.inr ⟨"[signal]", by simp [outputTags], " SIGINT received. Stopping...", rfl⟩

/-- Witness for the amended C9 at concrete lines. -/
theorem C9_witness :
    startsWithTag outputTags ("[open]" ++ (" Connected. Subscribing to: " ++ CHANNEL)) ∧
    startsWithTag extendedTags "[text] hello" ∧
    ("" = "" ∨ startsWithTag outputTags "") :=
  ⟨C9_console_lines_tagged.1 ("[open]" ++ (" Connected. Subscribing to: " ++ CHANNEL))
     (by simp [on_open, tagged]),
   C9_console_lines_tagged.2.1 (fun _ => "") none (.text "hello") "[text] hello"
     (by simp [on_message, tagged]),
   C9_console_lines_tagged.2.2.2.2.1 "" (by simp [handleSigintLines])⟩

/-- The decoded bookTicker sub-message of the C10 counterexample: every
probed price attribute is absent except the legacy lowercase `bidprice`,
which is present but holds the falsy empty string. -/
def pbtFalsyLower : PBT := ⟨none, some "", none, none, none, none, none, none⟩

def wrapperFalsyLower : Wrapper := ⟨"", "", some pbtFalsyLower, none, none, none, none⟩

/-- C10 counterexample: all four probed price variants are absent or falsy,
yet `on_message` prints a "[bookTicker]" line (with an empty bid price), not
the raw-object fallback: the or-chain yields the empty string, which fails
the `is not None` test's complement because `"" is not None` holds. -/
theorem C10_counterexample :
    (pbtFalsyLower.bidPrice = none ∨ pbtFalsyLower.bidPrice = some "") ∧
    (pbtFalsyLower.bidprice = none ∨ pbtFalsyLower.bidprice = some "") ∧
    (pbtFalsyLower.askPrice = none ∨ pbtFalsyLower.askPrice = some "") ∧
    (pbtFalsyLower.askprice = none ∨ pbtFalsyLower.askprice = some "") ∧
    (on_message (fun _ => "") (some (fun _ => some wrapperFalsyLower)) (.binary [0])).lines
      = ["[bookTicker]  | bid  x None  ask None x None  (channel=)"] ∧
    strHasTag "[bookTicker raw]" "[bookTicker]  | bid  x None  ask None x None  (channel=)"
      = false :=
  ⟨Or.inl rfl, Or.inr rfl, Or.inl rfl, Or.inl rfl, rfl, rfl⟩

/-- C10 amended: the camelCase probe cannot distinguish a present-but-falsy
field from an absent one (first conjunct), but the raw-object fallback is
printed if and only if, for bid and for ask alike, the camelCase price
variant is absent or empty AND the lowercase variant is absent; a lowercase
variant that is present but empty still counts as a value, so a
"[bookTicker]" line with empty price fields is printed instead. -/
theorem C10_raw_fallback_condition :
    (∀ b, pyOrStr (some "") b = pyOrStr none b) ∧
    (∀ pbtRepr dec bs w pbt, dec bs = some w →
      pyOrPBT w.publicAggreBookTicker (pyOrPBT w.publicaggrebookticker w.publicbookticker)
          = some pbt →
      (strHasTag "[bookTicker raw]"
          ((on_message pbtRepr (some dec) (.binary bs)).lines.headD "") = true ↔
        ((pbt.bidPrice = none ∨ pbt.bidPrice = some "") ∧ pbt.bidprice = none) ∧
        ((pbt.askPrice = none ∨ pbt.askPrice = some "") ∧ pbt.askprice = none))) := by
  constructor
  · intro b
    rfl
  · intro pr dec bs w pbt hdec hpbt
    have hlines : (on_message pr (some dec) (.binary bs)).lines = bookTickerLines pr w := by
      simp only [on_message, hdec]
    rw [hlines]
    simp only [bookTickerLines, hpbt]
    by_cases hc : pyOrStr pbt.bidPrice pbt.bidprice ≠ none ∨
        pyOrStr pbt.askPrice pbt.askprice ≠ none
    · rw [if_pos hc]
      constructor
      · intro habs
        exact absurd habs (by simp [strHasTag, tagged, List.isPrefixOf])
      · intro hR
        exact absurd hc (by
          push_neg
          exact ⟨(pyOrStr_eq_none _ _).mpr hR.1, (pyOrStr_eq_none _ _).mpr hR.2⟩)
    · rw [if_neg hc]
      push_neg at hc
      constructor
      · intro _
        exact ⟨(pyOrStr_eq_none _ _).mp hc.1, (pyOrStr_eq_none _ _).mp hc.2⟩
      · intro _
        exact strHasTag_append "[bookTicker raw]"
          (" symbol=" ++ w.symbol ++ " (channel=" ++ w.channel ++ ") -> " ++ pr pbt)

/-- The all-absent bookTicker sub-message used by the C10 witness. -/
def pbtAllAbsent : PBT := ⟨none, none, none, none, none, none, none, none⟩

def wrapperAllAbsent : Wrapper := ⟨"", "", some pbtAllAbsent, none, none, none, none⟩

/-- Witness for the amended C10 at a concrete decoded wrapper. -/
theorem C10_witness :
    strHasTag "[bookTicker raw]"
        ((on_message (fun _ => "") (some (fun _ => some wrapperAllAbsent))
          (.binary [])).lines.headD "") = true ↔
      ((pbtAllAbsent.bidPrice = none ∨ pbtAllAbsent.bidPrice = some "") ∧
        pbtAllAbsent.bidprice = none) ∧
      ((pbtAllAbsent.askPrice = none ∨ pbtAllAbsent.askPrice = some "") ∧
        pbtAllAbsent.askprice = none) :=
  C10_raw_fallback_condition.2 (fun _ => "") (fun _ => some wrapperAllAbsent) []
    wrapperAllAbsent pbtAllAbsent rfl rfl

end MexcJump
